import Mathlib

/-
  Verification development for the image mark class
  (src/core/prototypes/marks/image.ts, class ImageElementClass).

  Numbers are modelled as rationals.  External collaborators that live
  outside the studied source file (the constraint solver, the graphics
  primitive vocabulary, the coordinate-system service, the resource
  resolver) are modelled at their interface boundary, following the
  specification of those interfaces.
-/

namespace Charticulator

/-- An RGB color value (the `Color` type of the core specification module). -/
structure Color where
  r : ℚ
  g : ℚ
  b : ℚ
deriving DecidableEq

/-- A 2D point, as used by the graphics and geometry modules. -/
structure Point where
  x : ℚ
  y : ℚ
deriving DecidableEq

/-- Modelled from the spec: the transform descriptor returned by the
coordinate-system service operation `getLocalTransform(cx, cy)`, usable to
place a locally-drawn sub-tree.  The graphics module is outside the studied
source; a rigid transform is a position plus an angle. -/
structure Transform where
  x : ℚ
  y : ℚ
  angle : ℚ
deriving DecidableEq

/-- The image resize mode enum (`letterbox`, `fill`, `stretch`). -/
inductive ImageMode where
  | letterbox
  | fill
  | stretch
deriving DecidableEq

/-- The attribute store of one image mark instance: the declared attributes
`x1, y1, x2, y2, cx, cy, width, height, fill, stroke, strokeWidth, opacity,
visible, image`.  Color-or-null attributes are `Option Color`; the `image`
payload attribute is a string that may also be null (`Option String`). -/
structure ImageElementAttributes where
  x1 : ℚ
  y1 : ℚ
  x2 : ℚ
  y2 : ℚ
  cx : ℚ
  cy : ℚ
  width : ℚ
  height : ℚ
  fill : Option Color
  stroke : Option Color
  strokeWidth : ℚ
  opacity : ℚ
  visible : Bool
  image : Option String
deriving DecidableEq

/-- The type-level properties of the image mark
(`ImageElementProperties`): visibility and the image resize mode. -/
structure ImageElementProperties where
  visible : Bool
  imageMode : ImageMode
deriving DecidableEq

/-- `initializeState`: initialize the state of an element so that everything
has a valid value.  The source mutates `this.state.attributes`; here the
store is passed in and the updated store returned. -/
def initializeState (_a : ImageElementAttributes) : ImageElementAttributes :=
  let defaultWidth : ℚ := 30
  let defaultHeight : ℚ := 50
  { x1 := -defaultWidth / 2
    y1 := -defaultHeight / 2
    x2 := defaultWidth / 2
    y2 := defaultHeight / 2
    cx := 0
    cy := 0
    width := defaultWidth
    height := defaultHeight
    stroke := none
    fill := none
    strokeWidth := 1
    opacity := 1
    visible := true
    image := some "" }

/-- Modelled from the spec: the strength tags of the solver service
(`ConstraintStrength` of the solver module, which is outside the studied
source).  The claims only use the required `HARD` tier. -/
inductive ConstraintStrength where
  | HARD
  | STRONG
  | MEDIUM
  | WEAK
  | WEAKER
deriving DecidableEq

/-- One linear constraint registered with the solver by `addLinear(strength,
constant, lhsTerms, rhsTerms)`: each term is a coefficient paired with a
variable handle of type `V`. -/
structure LinearConstraint (V : Type) where
  strength : ConstraintStrength
  bias : ℚ
  lhs : List (ℚ × V)
  rhs : List (ℚ × V)
deriving DecidableEq

/-- Modelled from the spec: the solver service boundary.  `attrs(store,
names)` returns one variable handle per requested attribute name; it is
modelled as a per-name binding function, so the handle obtained for a name
depends only on the store identity and the name. -/
structure ConstraintSolver (V : Type) where
  attrs : ImageElementAttributes → String → V

/-- `buildConstraints(solver)`: get intrinsic constraints between attributes.
The source destructures `solver.attrs(this.state.attributes, ["x1", "y1",
"x2", "y2", "cx", "cy", "width", "height"])` and issues four `addLinear`
calls; the list returned here records those calls in order. -/
def buildConstraints {V : Type} (solver : ConstraintSolver V)
    (state : ImageElementAttributes) : List (LinearConstraint V) :=
  let x1 := solver.attrs state "x1"
  let y1 := solver.attrs state "y1"
  let x2 := solver.attrs state "x2"
  let y2 := solver.attrs state "y2"
  let cx := solver.attrs state "cx"
  let cy := solver.attrs state "cy"
  let width := solver.attrs state "width"
  let height := solver.attrs state "height"
  [ ⟨ConstraintStrength.HARD, 0, [(1, x2), (-1, x1)], [(1, width)]⟩,
    ⟨ConstraintStrength.HARD, 0, [(1, y2), (-1, y1)], [(1, height)]⟩,
    ⟨ConstraintStrength.HARD, 0, [(2, cx)], [(1, x1), (1, x2)]⟩,
    ⟨ConstraintStrength.HARD, 0, [(2, cy)], [(1, y1), (1, y2)]⟩ ]

/-- The structural part of a constraint: strength, constant, and the
coefficient lists, with the variable bindings erased. -/
def constraintShape {V : Type} (c : LinearConstraint V) :
    ConstraintStrength × ℚ × List ℚ × List ℚ :=
  (c.strength, c.bias, c.lhs.map Prod.fst, c.rhs.map Prod.fst)

/-- The axis-aligned bounding rectangle returned by `getBoundingBox` (the
source `type: "rectangle"` description; `rotAngle` models its field named
`rotation`). -/
structure BoundingBoxRect where
  cx : ℚ
  cy : ℚ
  width : ℚ
  height : ℚ
  rotAngle : ℚ
deriving DecidableEq

/-- `getBoundingBox()`: get the bounding rectangle given current state. -/
def getBoundingBox (attrs : ImageElementAttributes) : BoundingBoxRect :=
  { cx := (attrs.x1 + attrs.x2) / 2
    cy := (attrs.y1 + attrs.y2) / 2
    width := |attrs.x2 - attrs.x1|
    height := |attrs.y2 - attrs.y1|
    rotAngle := 0 }

/-- Swap the `x1` and `x2` attributes of a store, all else unchanged. -/
def swapX (a : ImageElementAttributes) : ImageElementAttributes :=
  ⟨a.x2, a.y1, a.x1, a.y2, a.cx, a.cy, a.width, a.height,
    a.fill, a.stroke, a.strokeWidth, a.opacity, a.visible, a.image⟩

/-- Swap the `y1` and `y2` attributes of a store, all else unchanged. -/
def swapY (a : ImageElementAttributes) : ImageElementAttributes :=
  ⟨a.x1, a.y2, a.x2, a.y1, a.cx, a.cy, a.width, a.height,
    a.fill, a.stroke, a.strokeWidth, a.opacity, a.visible, a.image⟩

/-- Replace the derived attributes `cx, cy, width, height` of a store,
leaving the corners and all style attributes unchanged. -/
def setDerived (a : ImageElementAttributes) (c d w h : ℚ) :
    ImageElementAttributes :=
  ⟨a.x1, a.y1, a.x2, a.y2, c, d, w, h,
    a.fill, a.stroke, a.strokeWidth, a.opacity, a.visible, a.image⟩

/-- The built-in inline placeholder image (`imagePlaceholder` in the
source), substituted when the `image` attribute is empty or unset. -/
def imagePlaceholder : String :=
  "data:image/svg+xml;base64,PHN2ZyB4bWxucz0iaHR0cDovL3d3dy53My5vcmcvMjAwMC9zdmciIHZpZXdCb3g9IjAgMCAzMiAzMiI+PHRpdGxlPmljb25zPC90aXRsZT48cmVjdCB4PSI1LjE1MTI0IiB5PSI2LjY4NDYyIiB3aWR0aD0iMjEuNjk3NTIiIGhlaWdodD0iMTguNjEyNSIgc3R5bGU9ImZpbGw6bm9uZTtzdHJva2U6IzAwMDtzdHJva2UtbGluZWpvaW46cm91bmQ7c3Ryb2tlLXdpZHRoOjAuOTI2MTg0MTE3Nzk0MDM2OXB4Ii8+PHBvbHlnb24gcG9pbnRzPSIyMC4xNSAxMi45NDMgMTMuODExIDIxLjQwNCAxMC4xNTQgMTYuNDk4IDUuMTUxIDIzLjE3NiA1LjE1MSAyNS4zMDYgMTAuODg4IDI1LjMwNiAxNi43MTkgMjUuMzA2IDI2Ljg0OSAyNS4zMDYgMjYuODQ5IDIxLjkzIDIwLjE1IDEyLjk0MyIgc3R5bGU9ImZpbGwtb3BhY2l0eTowLjI7c3Ryb2tlOiMwMDA7c3Ryb2tlLWxpbmVjYXA6cm91bmQ7c3Ryb2tlLWxpbmVqb2luOnJvdW5kO3N0cm9rZS13aWR0aDowLjcwMDAwMDAwMDAwMDAwMDFweCIvPjxjaXJjbGUgY3g9IjExLjkyMDI3IiBjeT0iMTIuMzk5MjMiIHI9IjEuOTAyMTYiIHN0eWxlPSJmaWxsLW9wYWNpdHk6MC4yO3N0cm9rZTojMDAwO3N0cm9rZS1saW5lY2FwOnJvdW5kO3N0cm9rZS1saW5lam9pbjpyb3VuZDtzdHJva2Utd2lkdGg6MC43MDAwMDAwMDAwMDAwMDAxcHgiLz48L3N2Zz4="

/-- Style of a rectangle primitive: stroke color or null, optional stroke
width, optional line join, fill color or null (fields not passed by a call
site are `none`). -/
structure RectStyle where
  strokeColor : Option Color
  strokeWidth : Option ℚ
  strokeLinejoin : Option String
  fillColor : Option Color
deriving DecidableEq

/-- Modelled from the spec: the graphics primitive vocabulary consumed and
produced by the render resolver (the graphics module is outside the studied
source): group, rectangle by four corner coordinates with a style, image
with source, local position/size and resize mode; a group carries an
optional local transform and an optional group-level opacity style. -/
inductive Element where
  | rect (x1 y1 x2 y2 : ℚ) (style : RectStyle)
  | image (src : String) (x y : ℚ) (width height : ℚ) (mode : ImageMode)
  | group (elements : List Element) (transform : Option Transform)
      (opacity : Option ℚ)

/-- Modelled from the spec: the coordinate-system service boundary:
`transformPoint(x, y)` and `getLocalTransform(cx, cy)`. -/
structure CoordinateSystem where
  transformPoint : ℚ → ℚ → Point
  getLocalTransform : ℚ → ℚ → Transform

/-- Modelled from the spec: `CoordinateSystemHelper.rect` of the graphics
module (outside the studied source) emits a rectangle primitive given the
four corner coordinates and a style. -/
def helperRect (x1 y1 x2 y2 : ℚ) (style : RectStyle) : Element :=
  Element.rect x1 y1 x2 y2 style

/-- The image source resolution step of `getGraphics`: if the `image`
attribute is the empty string or null, the built-in placeholder; otherwise
the result of the resource resolver on the attribute value. -/
def imageSource (resolveResource : String → String) :
    Option String → String
  | none => imagePlaceholder
  | some s => if s = "" then imagePlaceholder else resolveResource s

/-- `getGraphics(cs, offset, glyphIndex, manager)`: get the graphical
element from the element, or `none` to skip drawing.  `dist` models
`Geometry.pointDistance` of the core geometry module (outside the studied
source): the distance of two transformed points; the claims treated here
depend only on which two points it is applied to, not on its value.
`resolveResource` models `manager.resolveResource`. -/
def getGraphics (cs : CoordinateSystem) (dist : Point → Point → ℚ)
    (offset : Point) (_glyphIndex : ℤ) (resolveResource : String → String)
    (props : ImageElementProperties) (attrs : ImageElementAttributes) :
    Option Element :=
  if !attrs.visible || !props.visible then none
  else
    let fillElems : List Element :=
      match attrs.fill with
      | some f =>
        [helperRect (attrs.x1 + offset.x) (attrs.y1 + offset.y)
          (attrs.x2 + offset.x) (attrs.y2 + offset.y)
          ⟨none, none, none, some f⟩]
      | none => []
    let cx := (attrs.x1 + attrs.x2) / 2
    let cy := (attrs.y1 + attrs.y2) / 2
    let localWidth :=
      dist (cs.transformPoint (attrs.x1 + offset.x) (cy + offset.y))
        (cs.transformPoint (attrs.x2 + offset.x) (cy + offset.y))
    let localHeight :=
      dist (cs.transformPoint (cx + offset.x) (attrs.y1 + offset.y))
        (cs.transformPoint (cx + offset.x) (attrs.y2 + offset.y))
    let gImage : Element :=
      Element.group
        [Element.image (imageSource resolveResource attrs.image)
          (-localWidth / 2) (-localHeight / 2) localWidth localHeight
          props.imageMode]
        (some (cs.getLocalTransform (cx + offset.x) (cy + offset.y))) none
    let strokeElems : List Element :=
      match attrs.stroke with
      | some s =>
        [helperRect (attrs.x1 + offset.x) (attrs.y1 + offset.y)
          (attrs.x2 + offset.x) (attrs.y2 + offset.y)
          ⟨some s, some attrs.strokeWidth, some "miter", none⟩]
      | none => []
    some (Element.group (fillElems ++ [gImage] ++ strokeElems) none
      (some attrs.opacity))

/-- One write action carried by a handle: an optional drag source axis and
the target attribute name. -/
structure HandleAction where
  source : Option String
  attributeName : String
deriving DecidableEq

/-- A handle description: a line handle (axis, actions, position value,
orthogonal span) or a point handle (position, actions). -/
inductive Handle where
  | line (axis : String) (actions : List HandleAction) (value : ℚ)
      (span : ℚ × ℚ)
  | point (x y : ℚ) (actions : List HandleAction)
deriving DecidableEq

/-- `getHandles()`: the draggable affordances for the current state. -/
def getHandles (attrs : ImageElementAttributes) : List Handle :=
  let x1 := attrs.x1
  let y1 := attrs.y1
  let x2 := attrs.x2
  let y2 := attrs.y2
  [ Handle.line "x" [⟨none, "x1"⟩] x1 (y1, y2),
    Handle.line "x" [⟨none, "x2"⟩] x2 (y1, y2),
    Handle.line "y" [⟨none, "y1"⟩] y1 (x1, x2),
    Handle.line "y" [⟨none, "y2"⟩] y2 (x1, x2),
    Handle.point x1 y1 [⟨some "x", "x1"⟩, ⟨some "y", "y1"⟩],
    Handle.point x1 y2 [⟨some "x", "x1"⟩, ⟨some "y", "y2"⟩],
    Handle.point x2 y1 [⟨some "x", "x2"⟩, ⟨some "y", "y1"⟩],
    Handle.point x2 y2 [⟨some "x", "x2"⟩, ⟨some "y", "y2"⟩] ]

/-- The scale-inference binding of a drop action: the dependent attribute,
its attribute type, and whether auto-ranging is hinted. -/
structure ScaleInference where
  attributeName : String
  attributeType : String
  autoRange : Bool
deriving DecidableEq

/-- A drop zone description: the claims only use line zones, given by two
endpoints, a title tag, the accepted data kind and the drop action. -/
inductive DropZone where
  | lineZone (p1 p2 : Point) (title : String) (acceptKind : String)
      (scaleInference : ScaleInference)
deriving DecidableEq

/-- `getDropZones()`: the data-binding drop zones for the current state.
The data kind and attribute type enum values of the specification module
(outside the studied source) are modelled by their string names. -/
def getDropZones (attrs : ImageElementAttributes) : List DropZone :=
  let x1 := attrs.x1
  let y1 := attrs.y1
  let x2 := attrs.x2
  let y2 := attrs.y2
  [ DropZone.lineZone ⟨x2, y1⟩ ⟨x1, y1⟩ "width" "numerical"
      ⟨"width", "number", true⟩,
    DropZone.lineZone ⟨x1, y1⟩ ⟨x1, y2⟩ "height" "numerical"
      ⟨"height", "number", true⟩ ]

/-- The spans of the line handles of a given axis, each taken as the set of
points between its two endpoints (order-independently). -/
def lineSpans (axis : String) (hs : List Handle) : List (Set ℚ) :=
  hs.filterMap fun h =>
    match h with
    | Handle.line ax _ _ sp =>
      if ax = axis then some (Set.uIcc sp.1 sp.2) else none
    | Handle.point _ _ _ => none

/-- Whether a handle is a line handle. -/
def Handle.isLine : Handle → Bool
  | Handle.line _ _ _ _ => true
  | Handle.point _ _ _ => false

/-- Whether a handle is a point handle. -/
def Handle.isPoint : Handle → Bool
  | Handle.line _ _ _ _ => false
  | Handle.point _ _ _ => true

/-- The target attribute names of the actions of a handle, in order. -/
def Handle.actionAttributes : Handle → List String
  | Handle.line _ acts _ _ => acts.map HandleAction.attributeName
  | Handle.point _ _ acts => acts.map HandleAction.attributeName

/-- Whether an element is a group. -/
def Element.isGroup : Element → Bool
  | Element.group _ _ _ => true
  | Element.rect _ _ _ _ _ => false
  | Element.image _ _ _ _ _ _ => false

/-- The identity Cartesian coordinate system, used to evaluate the render
resolver on concrete inputs. -/
def idCS : CoordinateSystem :=
  ⟨fun a b => ⟨a, b⟩, fun a b => ⟨a, b, 0⟩⟩

/-- A concrete metric on points (squared Euclidean distance), used to
evaluate the render resolver on concrete inputs. -/
def sqDist (p q : Point) : ℚ :=
  (q.x - p.x) ^ 2 + (q.y - p.y) ^ 2

/-- A concrete resource resolver, used on concrete inputs. -/
def idResolver (s : String) : String := s

/-- An arbitrary pre-initialization store. -/
def blankState : ImageElementAttributes :=
  ⟨0, 0, 0, 0, 0, 0, 0, 0, none, none, 0, 0, false, none⟩

/-- The attribute store produced by `initializeState`. -/
def defaultState : ImageElementAttributes :=
  initializeState blankState

end Charticulator

namespace Charticulator

/-- C1: For every attribute state, `buildConstraints(solver)` emits exactly
four HARD-strength linear equalities with zero constant — x2 − x1 = width,
y2 − y1 = height, 2·cx = x1 + x2, 2·cy = y1 + y2 — and the emitted
strengths, constants, and coefficients are identical regardless of the
current numeric values of the attributes (only the variable bindings
obtained from `solver.attrs` vary). -/
theorem buildConstraints_four_hard_zero_equalities :
    ∀ (V : Type) (solver : ConstraintSolver V)
      (state : ImageElementAttributes),
      buildConstraints solver state =
        [ ⟨ConstraintStrength.HARD, 0,
            [(1, solver.attrs state "x2"), (-1, solver.attrs state "x1")],
            [(1, solver.attrs state "width")]⟩,
          ⟨ConstraintStrength.HARD, 0,
            [(1, solver.attrs state "y2"), (-1, solver.attrs state "y1")],
            [(1, solver.attrs state "height")]⟩,
          ⟨ConstraintStrength.HARD, 0, [(2, solver.attrs state "cx")],
            [(1, solver.attrs state "x1"), (1, solver.attrs state "x2")]⟩,
          ⟨ConstraintStrength.HARD, 0, [(2, solver.attrs state "cy")],
            [(1, solver.attrs state "y1"), (1, solver.attrs state "y2")]⟩ ] ∧
      (buildConstraints solver state).length = 4 ∧
      (∀ s t : ImageElementAttributes,
        (buildConstraints solver s).map constraintShape =
          (buildConstraints solver t).map constraintShape) := by
  intro V solver state
  exact ⟨rfl, rfl, fun s t => rfl⟩

/-- C2: `getGraphics` returns null exactly when the per-instance `visible`
attribute is false or the type-level `visible` property is false; in every
other case it returns a (non-null) group, and the null result is a normal
return value of the function, not an error. -/
theorem getGraphics_none_iff_invisible :
    ∀ (cs : CoordinateSystem) (dist : Point → Point → ℚ) (offset : Point)
      (gi : ℤ) (res : String → String) (props : ImageElementProperties)
      (attrs : ImageElementAttributes),
      (getGraphics cs dist offset gi res props attrs = none ↔
        attrs.visible = false ∨ props.visible = false) ∧
      Option.map Element.isGroup
          (getGraphics cs dist offset gi res props attrs) =
        (if (attrs.visible && props.visible) = true then some true
          else none) := by
  intro cs dist offset gi res props attrs
  cases hv : attrs.visible <;> cases hp : props.visible <;>
    simp [getGraphics, hv, hp, Element.isGroup]

/-- C3: For every attribute state, `getBoundingBox` returns the rectangle
with cx = (x1 + x2) / 2, cy = (y1 + y2) / 2, width = |x2 − x1|, height =
|y2 − y1| and rotation angle 0; consequently the result is invariant under
swapping (x1, x2) or swapping (y1, y2), and width and height are always
non-negative. -/
theorem getBoundingBox_spec :
    ∀ a : ImageElementAttributes,
      getBoundingBox a =
        ⟨(a.x1 + a.x2) / 2, (a.y1 + a.y2) / 2,
          |a.x2 - a.x1|, |a.y2 - a.y1|, 0⟩ ∧
      getBoundingBox (swapX a) = getBoundingBox a ∧
      getBoundingBox (swapY a) = getBoundingBox a ∧
      0 ≤ (getBoundingBox a).width ∧ 0 ≤ (getBoundingBox a).height := by
  intro a
  refine ⟨rfl, ?_, ?_, abs_nonneg _, abs_nonneg _⟩ <;>
    simp [getBoundingBox, swapX, swapY, abs_sub_comm, add_comm]

/-- C4: For every attribute state, including flipped boxes with y1 > y2 or
x1 > x2, each x-axis line handle returned by `getHandles` spans the
interval from min(y1, y2) to max(y1, y2), and each y-axis line handle spans
the interval from min(x1, x2) to max(x1, x2): the spanned interval is
order-independent (invariant under swapping the opposite-axis corners), not
assumed sorted. -/
theorem getHandles_spans_order_independent :
    ∀ a : ImageElementAttributes,
      lineSpans "x" (getHandles a) =
        [Set.Icc (min a.y1 a.y2) (max a.y1 a.y2),
          Set.Icc (min a.y1 a.y2) (max a.y1 a.y2)] ∧
      lineSpans "y" (getHandles a) =
        [Set.Icc (min a.x1 a.x2) (max a.x1 a.x2),
          Set.Icc (min a.x1 a.x2) (max a.x1 a.x2)] ∧
      lineSpans "x" (getHandles (swapY a)) = lineSpans "x" (getHandles a) ∧
      lineSpans "y" (getHandles (swapX a)) = lineSpans "y" (getHandles a) := by
  intro a
  refine ⟨?_, ?_, ?_, ?_⟩ <;>
    simp [lineSpans, getHandles, swapX, swapY, Set.uIcc, inf_eq_min,
      sup_eq_max, min_comm, max_comm]

/-- C5: For every attribute state, `getDropZones` returns exactly two line
zones: one along the horizontal edge through y1 (the edge the spec calls
the top edge) tagged "width", and one along the vertical edge through x1
(the left edge) tagged "height"; each accepts numerical data and binds a
drop to scale inference on the corresponding size attribute (width or
height) with auto-ranging enabled. -/
theorem getDropZones_spec :
    ∀ a : ImageElementAttributes,
      getDropZones a =
        [ DropZone.lineZone ⟨a.x2, a.y1⟩ ⟨a.x1, a.y1⟩ "width" "numerical"
            ⟨"width", "number", true⟩,
          DropZone.lineZone ⟨a.x1, a.y1⟩ ⟨a.x1, a.y2⟩ "height" "numerical"
            ⟨"height", "number", true⟩ ] ∧
      (getDropZones a).length = 2 := by
  intro a
  exact ⟨rfl, rfl⟩

/-- C6: With visibility on, the image source is the built-in placeholder
exactly when the `image` attribute is empty or null, in which case the
output does not depend on the resource resolver (it is never invoked);
otherwise the source is the resolver result on the attribute value.  In the
default state (empty image, no fill, no stroke) the returned group contains
exactly one element — the placeholder image group — and no rectangle
primitives. -/
theorem getGraphics_placeholder_and_default_state :
    ∀ (cs : CoordinateSystem) (dist : Point → Point → ℚ) (offset : Point)
      (gi : ℤ) (res res2 : String → String)
      (props : ImageElementProperties) (a b : ImageElementAttributes)
      (mode : ImageMode),
      (imageSource res (some "") = imagePlaceholder ∧
        imageSource res none = imagePlaceholder) ∧
      (∀ s : String, s ≠ "" → imageSource res (some s) = res s) ∧
      ((a.image = some "" ∨ a.image = none) →
        getGraphics cs dist offset gi res props a =
          getGraphics cs dist offset gi res2 props a) ∧
      (∃ lw lh : ℚ, ∃ tr : Transform,
        getGraphics cs dist offset gi res ⟨true, mode⟩
            (initializeState b) =
          some (Element.group
            [Element.group
              [Element.image imagePlaceholder (-lw / 2) (-lh / 2) lw lh
                mode]
              (some tr) none]
            none (some 1))) := by
  intro cs dist offset gi res res2 props a b mode
  refine ⟨⟨rfl, rfl⟩, ?_, ?_, ?_⟩
  · intro s hs
    simp [imageSource, hs]
  · intro h
    rcases h with h | h <;>
      simp [getGraphics, imageSource, h]
  · exact ⟨_, _, _, rfl⟩

/-- Witness for C6 at concrete inputs: a non-empty image name resolves
through the resolver, and with an empty image the output does not change
when the resolver does. -/
theorem getGraphics_placeholder_and_default_state_witness :
    imageSource idResolver (some "img.png") = idResolver "img.png" ∧
    getGraphics idCS sqDist ⟨0, 0⟩ 0 idResolver
        ⟨true, ImageMode.letterbox⟩ defaultState =
      getGraphics idCS sqDist ⟨0, 0⟩ 0 (fun _ => "other")
        ⟨true, ImageMode.letterbox⟩ defaultState :=
  ⟨(getGraphics_placeholder_and_default_state idCS sqDist ⟨0, 0⟩ 0
      idResolver idResolver ⟨true, ImageMode.letterbox⟩ defaultState
      blankState ImageMode.letterbox).2.1 "img.png" (by decide),
    (getGraphics_placeholder_and_default_state idCS sqDist ⟨0, 0⟩ 0
      idResolver (fun _ => "other") ⟨true, ImageMode.letterbox⟩
      defaultState blankState ImageMode.letterbox).2.2.1
      (Or.inl (by decide))⟩

/-- C7: For every attribute state with visibility on and both `fill` and
`stroke` set to colors, the returned group has its elements in the order
[filled rectangle (no stroke), image group, stroked rectangle (no fill,
miter join, the configured stroke width)], so the fill is under the image
and the stroke over it; the group carries the instance opacity as a
group-level style. -/
theorem getGraphics_fill_stroke_order :
    ∀ (cs : CoordinateSystem) (dist : Point → Point → ℚ) (offset : Point)
      (gi : ℤ) (res : String → String) (mode : ImageMode)
      (x1 y1 x2 y2 cx cy w h sw op : ℚ) (f s : Color)
      (img : Option String),
      ∃ lw lh : ℚ, ∃ tr : Transform,
        getGraphics cs dist offset gi res ⟨true, mode⟩
            ⟨x1, y1, x2, y2, cx, cy, w, h, some f, some s, sw, op, true,
              img⟩ =
          some (Element.group
            [ Element.rect (x1 + offset.x) (y1 + offset.y) (x2 + offset.x)
                (y2 + offset.y) ⟨none, none, none, some f⟩,
              Element.group
                [Element.image (imageSource res img) (-lw / 2) (-lh / 2)
                  lw lh mode]
                (some tr) none,
              Element.rect (x1 + offset.x) (y1 + offset.y) (x2 + offset.x)
                (y2 + offset.y) ⟨some s, some sw, some "miter", none⟩ ]
            none (some op)) := by
  intro cs dist offset gi res mode x1 y1 x2 y2 cx cy w h sw op f s img
  exact ⟨_, _, _, rfl⟩

/-- C8: For every attribute state, `getHandles` returns exactly 4 line
handles and 4 point handles; each line handle carries exactly one write
action targeting one of x1, x2, y1, y2 (each attribute once), and each
point handle sits at one box corner and carries exactly the two write
actions targeting the two corner attributes adjacent to that corner. -/
theorem getHandles_spec :
    ∀ a : ImageElementAttributes,
      getHandles a =
        [ Handle.line "x" [⟨none, "x1"⟩] a.x1 (a.y1, a.y2),
          Handle.line "x" [⟨none, "x2"⟩] a.x2 (a.y1, a.y2),
          Handle.line "y" [⟨none, "y1"⟩] a.y1 (a.x1, a.x2),
          Handle.line "y" [⟨none, "y2"⟩] a.y2 (a.x1, a.x2),
          Handle.point a.x1 a.y1 [⟨some "x", "x1"⟩, ⟨some "y", "y1"⟩],
          Handle.point a.x1 a.y2 [⟨some "x", "x1"⟩, ⟨some "y", "y2"⟩],
          Handle.point a.x2 a.y1 [⟨some "x", "x2"⟩, ⟨some "y", "y1"⟩],
          Handle.point a.x2 a.y2 [⟨some "x", "x2"⟩, ⟨some "y", "y2"⟩] ] ∧
      ((getHandles a).filter Handle.isLine).length = 4 ∧
      ((getHandles a).filter Handle.isPoint).length = 4 ∧
      (getHandles a).map Handle.actionAttributes =
        [["x1"], ["x2"], ["y1"], ["y2"],
          ["x1", "y1"], ["x1", "y2"], ["x2", "y1"], ["x2", "y2"]] := by
  intro a
  exact ⟨rfl, rfl, rfl, rfl⟩

/-- C9: `initializeState` is total and sets every declared attribute of the
store to its documented default: corners (x1, y1, x2, y2) = (−15, −25, 15,
25), width = 30, height = 50, cx = 0, cy = 0, fill = null, stroke = null,
strokeWidth = 1, opacity = 1, visible = true, image = "" (empty reference);
the whole record is determined, so no declared attribute is left
undefined. -/
theorem initializeState_spec :
    ∀ a : ImageElementAttributes,
      initializeState a =
        ⟨-15, -25, 15, 25, 0, 0, 30, 50, none, none, 1, 1, true,
          some ""⟩ := by
  intro a
  simp only [initializeState, ImageElementAttributes.mk.injEq]
  norm_num

/-- C10: `getBoundingBox` and `getGraphics` depend only on the corner
attributes x1, y1, x2, y2 (plus the style and image attributes and the
ambient coordinate system for rendering): both recompute the center from
the corners instead of reading the stored cx, cy, width, height, so two
attribute states agreeing on the corners but differing arbitrarily in the
stored cx, cy, width, height yield an identical bounding box and an
identical graphics tree (in particular an identically placed image). -/
theorem derived_attributes_noninterference :
    ∀ (a : ImageElementAttributes) (c d w h : ℚ) (cs : CoordinateSystem)
      (dist : Point → Point → ℚ) (offset : Point) (gi : ℤ)
      (res : String → String) (props : ImageElementProperties),
      getBoundingBox (setDerived a c d w h) = getBoundingBox a ∧
      getGraphics cs dist offset gi res props (setDerived a c d w h) =
        getGraphics cs dist offset gi res props a := by
  intro a c d w h cs dist offset gi res props
  exact ⟨rfl, rfl⟩

end Charticulator
